import Mathlib

/-!
Shallow embedding of the factory-to-kiosk point-of-sale application.

The definitions below translate the client-side handlers that write to the
relational store (Supabase tables) into pure Lean functions over an explicit
database state.  Money amounts (`price`, `total`) are rationals, mirroring the
JavaScript floating-point arithmetic on decimal prices; stocks and quantities
are integers, since the handlers perform unclamped integer subtraction on them
(`newStock = item.stock - item.quantity`).  Fallible user input parsed with
`parseInt` is modelled as `Option Int` (`none` = empty or unparseable field).
-/

namespace FactoryKiosk

/-- Row of the `profiles` table: identity plus role (`manager` or `kiosk`). -/
structure Profile where
  id : Nat
  email : String
  name : String
  role : String
  kioskName : Option String
deriving Repr, DecidableEq

/-- Row of the `factory_inventory` table. -/
structure FactoryRow where
  id : Nat
  name : String
  stock : Int
  price : Rat
  status : String
deriving Repr, DecidableEq

/-- Row of the `kiosk_inventory` table. -/
structure KioskRow where
  id : Nat
  kioskId : Nat
  itemName : String
  stock : Int
  price : Rat
  status : String
deriving Repr, DecidableEq

/-- Line item frozen by value into an order (`orderItems` in `handlePlaceOrder`). -/
structure OrderItem where
  id : Nat
  name : String
  quantity : Int
  price : Rat
deriving Repr, DecidableEq

/-- Row of the `orders` table.  `date` is the calendar date stamped at insert
time (`DATE DEFAULT CURRENT_DATE` in the migration), modelled as a day index. -/
structure Order where
  kioskId : Nat
  items : List OrderItem
  total : Rat
  paymentType : String
  date : Nat
deriving Repr, DecidableEq

/-- Line item of a purchase (replenishment) order. -/
structure POItem where
  name : String
  quantity : Int
deriving Repr, DecidableEq

/-- Row of the `purchase_orders` table. -/
structure PurchaseOrder where
  id : Nat
  kioskId : Nat
  items : List POItem
  status : String
deriving Repr, DecidableEq

/-- Row of the `reports` table; only the date matters for the claims here. -/
structure Report where
  id : Nat
  date : Nat
deriving Repr, DecidableEq

/-- Row of the `clock_logs` table.  `timestamp` is an absolute second count;
ISO-8601 string comparison used by the reset handler agrees with numeric
comparison of absolute seconds. -/
structure ClockLog where
  id : Nat
  kioskId : Nat
  logType : String
  timestamp : Nat
deriving Repr, DecidableEq

/-- Row of the `wastage` table.  `orderId = 0` stands for the placeholder UUID
`00000000-0000-0000-0000-000000000000` used by direct (non-order) wastage. -/
structure WastageRecord where
  kioskId : Nat
  orderId : Nat
  itemName : String
  quantity : Int
  reason : String
deriving Repr, DecidableEq

/-- Whole database state.  `nextId` models the id generator of the hosted
store for rows inserted with a fresh primary key. -/
structure DBState where
  profiles : List Profile
  factoryInventory : List FactoryRow
  kioskInventory : List KioskRow
  orders : List Order
  purchaseOrders : List PurchaseOrder
  reports : List Report
  clockLogs : List ClockLog
  wastage : List WastageRecord
  nextId : Nat
deriving Repr, DecidableEq

/-- Three-way status derivation inlined at `KioskSales.tsx:206` and
`ItemWastageModal.tsx:96`:
`newStock === 0 ? "Out of Stock" : newStock < 10 ? "Low Stock" : "In Stock"`. -/
def derivedStatus (newStock : Int) : String :=
  if newStock = 0 then "Out of Stock"
  else if newStock < 10 then "Low Stock"
  else "In Stock"

/-- Two-way status derivation inlined at `FactoryInventory.tsx:87,114,154,178,195`:
`newStock < 10 ? "Low Stock" : "In Stock"`.  Note it never yields
`"Out of Stock"`. -/
def coarseStatus (newStock : Int) : String :=
  if newStock < 10 then "Low Stock" else "In Stock"

/-- Cart line of the sales workflow: a kiosk inventory row as last fetched by
the client (`id`, `item_name`, `stock`, `price`) plus the chosen quantity. -/
structure CartLine where
  id : Nat
  itemName : String
  stock : Int
  price : Rat
  quantity : Int
deriving Repr, DecidableEq

/-- Cart total, `KioskSales.tsx:165`:
`currentOrder.reduce((sum, item) => sum + Number(item.price) * item.quantity, 0)`. -/
def getTotalPrice (cart : List CartLine) : Rat :=
  cart.foldl (fun sum item => sum + item.price * (item.quantity : Rat)) 0

/-- Effect on one kiosk inventory row of the per-line stock update issued at
`KioskSales.tsx:200` (`.update({stock, status}).eq("id", item.id)`). -/
def applyCartLine (item : CartLine) (r : KioskRow) : KioskRow :=
  if r.id = item.id then
    { r with stock := item.stock - item.quantity,
             status := derivedStatus (item.stock - item.quantity) }
  else r

/-- One per-line stock update applied to the whole `kiosk_inventory` table. -/
def updateStockForLine (inv : List KioskRow) (item : CartLine) : List KioskRow :=
  inv.map (applyCartLine item)

/-- Purchase orders inserted at `KioskSales.tsx:218` for the cart lines whose
`newStock = stock - quantity` fell below 10: one fresh `Preparing` order per
such line with `items = [{name, quantity: 50 - newStock}]`. -/
def mkReplenishment (kioskId : Nat) : Nat → List CartLine → List PurchaseOrder
  | _, [] => []
  | freshId, item :: rest =>
    ⟨freshId, kioskId,
      [⟨item.itemName, 50 - (item.stock - item.quantity)⟩], "Preparing"⟩ ::
      mkReplenishment kioskId (freshId + 1) rest

/-- Sales workflow, `KioskSales.tsx:169` (`handlePlaceOrder`): abort on an
empty cart; otherwise insert the order with the line items frozen by value and
`total = getTotalPrice`, issue one stock update per cart line, and insert a
replenishment purchase order for every line whose new stock is below 10. -/
def handlePlaceOrder (st : DBState) (kioskId : Nat) (cart : List CartLine)
    (paymentType : String) (today : Nat) : DBState :=
  if cart = [] then st
  else
    let total := getTotalPrice cart
    let orderItems := cart.map fun item =>
      OrderItem.mk item.id item.itemName item.quantity item.price
    let lowLines := cart.filter fun item =>
      decide (item.stock - item.quantity < 10)
    { st with
      orders := st.orders ++ [⟨kioskId, orderItems, total, paymentType, today⟩],
      kioskInventory := cart.foldl updateStockForLine st.kioskInventory,
      purchaseOrders := st.purchaseOrders ++ mkReplenishment kioskId st.nextId lowLines,
      nextId := st.nextId + lowLines.length }

/-- Allocation workflow, `FactoryInventory.tsx:137` (`handleSendItem`): abort
when the quantity field is empty or exceeds the factory row's stock; otherwise
decrement the factory row, then upsert the destination kiosk row matched by
`(kiosk_id, item_name)`: increment its stock if present, else insert a new row
with `stock = quantity` and the factory entry's price. -/
def handleSendItem (st : DBState) (sendItem : FactoryRow) (selectedKiosk : Nat)
    (sendQuantity : Option Int) : DBState :=
  match sendQuantity with
  | none => st
  | some quantity =>
    if sendItem.stock < quantity then st
    else
      let factoryStock := sendItem.stock - quantity
      let st1 : DBState := { st with factoryInventory := st.factoryInventory.map fun r =>
        if r.id = sendItem.id then
          { r with stock := factoryStock, status := coarseStatus factoryStock }
        else r }
      match st1.kioskInventory.find? fun r =>
          r.kioskId == selectedKiosk && r.itemName == sendItem.name with
      | some existing =>
        let newStock := existing.stock + quantity
        { st1 with kioskInventory := st1.kioskInventory.map fun r =>
          if r.id = existing.id then
            { r with stock := newStock, status := coarseStatus newStock }
          else r }
      | none =>
        { st1 with
          kioskInventory := st1.kioskInventory ++
            [⟨st1.nextId, selectedKiosk, sendItem.name, quantity, sendItem.price,
              coarseStatus quantity⟩],
          nextId := st1.nextId + 1 }

/-- Factory catalog edit, `FactoryInventory.tsx:109` (`handleUpdateItem`):
overwrite name, stock, price and the two-way status of the row with the given
id.  It touches only `factory_inventory`. -/
def handleUpdateItem (st : DBState) (itemId : Nat) (name : String)
    (stock : Int) (price : Rat) : DBState :=
  { st with factoryInventory := st.factoryInventory.map fun r =>
    if r.id = itemId then ⟨itemId, name, stock, price, coarseStatus stock⟩ else r }

/-- Direct-inventory wastage, `ItemWastageModal.tsx:44` (`handleSubmit`):
abort when a field is empty, the parsed quantity is non-positive or `NaN`, or
the quantity exceeds the stock snapshot; otherwise insert the wastage record
(placeholder order id) and update every row matched by `(kiosk_id, item_name)`
to `stock = max 0 (currentStock - qty)` with the three-way status. -/
def wastageDirectSubmit (st : DBState) (kioskId : Nat) (itemName : String)
    (currentStock : Int) (quantityInput : Option Int) (reason : String) : DBState :=
  match quantityInput with
  | none => st
  | some wastageQty =>
    if reason = "" then st
    else if wastageQty ≤ 0 then st
    else if currentStock < wastageQty then st
    else
      let newStock := max 0 (currentStock - wastageQty)
      { st with
        wastage := st.wastage ++ [⟨kioskId, 0, itemName, wastageQty, reason⟩],
        kioskInventory := st.kioskInventory.map fun r =>
          if r.kioskId = kioskId ∧ r.itemName = itemName then
            { r with stock := newStock, status := derivedStatus newStock }
          else r }

/-- Order-linked wastage, `WastageModal` (`handleSubmit`): no check against
current stock; insert the wastage record, fetch the matched row's stock with
`.single()`, and update the matched rows to `stock = max 0 (stock - qty)` —
the update payload is `{ stock: newStock }` only, so `status` is not written.
When the fetch finds no row the thrown error leaves the already-inserted
wastage record in place (no rollback). -/
def orderWastageSubmit (st : DBState) (orderId : Nat) (kioskId : Nat)
    (selectedItem : String) (quantityInput : Option Int) (reason : String) : DBState :=
  if selectedItem = "" ∨ reason = "" then st
  else
    match quantityInput with
    | none => st
    | some wastageQty =>
      if wastageQty ≤ 0 then st
      else
        let inserted := st.wastage ++
          [⟨kioskId, orderId, selectedItem, wastageQty, reason⟩]
        match st.kioskInventory.find? fun r =>
            r.kioskId == kioskId && r.itemName == selectedItem with
        | none => { st with wastage := inserted }
        | some row =>
          let newStock := max 0 (row.stock - wastageQty)
          { st with
            wastage := inserted,
            kioskInventory := st.kioskInventory.map fun r =>
              if r.kioskId = kioskId ∧ r.itemName = selectedItem then
                { r with stock := newStock }
              else r }

/-- Purchase order status change, `PurchaseOrders.tsx:51`
(`handleStatusChange`): a direct overwrite of `status` on the selected row,
with no validation of the transition. -/
def handleStatusChange (st : DBState) (orderId : Nat) (newStatus : String) : DBState :=
  { st with purchaseOrders := st.purchaseOrders.map fun po =>
    if po.id = orderId then { po with status := newStatus } else po }

/-- Sign-up, `Auth.tsx:35` (`handleSignUp`): after the zod format validation
(name length 2..100, password length 6..72, role one of the two enum values),
a sign-up as manager first queries for an existing manager profile and aborts
before any auth or profile write when one exists; otherwise the profile row is
inserted, with `kiosk_name` only for kiosk accounts. -/
def handleSignUp (st : DBState) (userId : Nat) (email name password role
    kioskName : String) : DBState :=
  if name.length < 2 ∨ 100 < name.length ∨
     password.length < 6 ∨ 72 < password.length ∨
     ¬ (role = "manager" ∨ role = "kiosk") then st
  else if role = "manager" ∧ (st.profiles.find? fun p => p.role == "manager").isSome then
    st
  else
    { st with profiles := st.profiles ++
      [⟨userId, email, name, role,
        if role = "kiosk" then some kioskName else none⟩] }

/-- Absolute second of `${today}T00:00:00`, the reset handler's `gte` bound. -/
def dayStartSec (today : Nat) : Nat := 86400 * today

/-- Absolute second of `${today}T23:59:59`, the reset handler's strict `lt`
bound — the last second of the day is excluded. -/
def dayLastSec (today : Nat) : Nat := 86400 * today + 86399

/-- Manager reset, `ResetTodaysData` (`handleReset`): delete orders with
`date = today`, clock logs with `timestamp` in `[todayT00:00:00, todayT23:59:59)`,
and reports with `date = today`.  No other table is touched. -/
def handleReset (st : DBState) (today : Nat) : DBState :=
  { st with
    orders := st.orders.filter fun o => !(o.date == today),
    clockLogs := st.clockLogs.filter fun c =>
      !(dayStartSec today ≤ c.timestamp && c.timestamp < dayLastSec today),
    reports := st.reports.filter fun r => !(r.date == today) }

/-- Number of manager profiles in the state. -/
def managerCount (st : DBState) : Nat :=
  (st.profiles.filter fun p => p.role == "manager").length

/-- Total claimed by the specification for an order: the sum of
`quantity × unit price` over its stored line items. -/
def orderItemsTotal (items : List OrderItem) : Rat :=
  (items.map fun i => (i.quantity : Rat) * i.price).sum

/-- Status/stock equivalence claimed by the specification for a kiosk catalog
row: `Out of Stock` iff the stock is zero, `Low Stock` iff it is strictly
between 0 and 10, `In Stock` otherwise. -/
def statusMatchesStock (status : String) (stock : Int) : Prop :=
  (status = "Out of Stock" ↔ stock = 0) ∧
  (status = "Low Stock" ↔ 0 < stock ∧ stock < 10) ∧
  (status = "In Stock" ↔ 10 ≤ stock)

instance instDecStatusMatchesStock (status : String) (stock : Int) :
    Decidable (statusMatchesStock status stock) := by
  unfold statusMatchesStock
  infer_instance

/-! Helper lemmas shared by the claim theorems. -/

lemma applyCartLine_id (item : CartLine) (r : KioskRow) :
    (applyCartLine item r).id = r.id := by
  unfold applyCartLine; split <;> rfl

lemma rowFold_of_no_match (c : List CartLine) (r : KioskRow)
    (h : ∀ x ∈ c, r.id ≠ x.id) :
    c.foldl (fun row item => applyCartLine item row) r = r := by
  induction c with
  | nil => rfl
  | cons a c ih =>
    have ha : applyCartLine a r = r := by
      unfold applyCartLine
      rw [if_neg (h a (List.mem_cons_self a c))]
    rw [List.foldl_cons, ha]
    exact ih fun x hx => h x (List.mem_cons_of_mem a hx)

lemma foldl_updateStock_eq_map (cart : List CartLine) (inv : List KioskRow) :
    cart.foldl updateStockForLine inv =
      inv.map (fun r => cart.foldl (fun row item => applyCartLine item row) r) := by
  induction cart generalizing inv with
  | nil => simp
  | cons a c ih =>
    rw [List.foldl_cons, ih]
    show (updateStockForLine inv a).map _ = _
    unfold updateStockForLine
    rw [List.map_map]
    rfl

lemma rowFold_single_match (cart : List CartLine) (l : CartLine) (r : KioskRow)
    (hpw : cart.Pairwise fun a b => a.id ≠ b.id)
    (hl : l ∈ cart) (hid : r.id = l.id) :
    cart.foldl (fun row item => applyCartLine item row) r = applyCartLine l r := by
  obtain ⟨s, t, rfl⟩ := List.append_of_mem hl
  rw [List.pairwise_append] at hpw
  obtain ⟨_, hpt, hcross⟩ := hpw
  rw [List.pairwise_cons] at hpt
  rw [List.foldl_append, List.foldl_cons]
  rw [rowFold_of_no_match s r
    (fun x hx => hid ▸ fun hc => hcross x hx l (List.mem_cons_self l t) hc.symm)]
  exact rowFold_of_no_match t (applyCartLine l r)
    (fun x hx => by rw [applyCartLine_id, hid]; exact hpt.1 x hx)

lemma getTotalPrice_foldl (c : List CartLine) (a : Rat) :
    c.foldl (fun sum item => sum + item.price * (item.quantity : Rat)) a =
      a + (c.map fun i => (i.quantity : Rat) * i.price).sum := by
  induction c generalizing a with
  | nil => simp
  | cons x c ih =>
    rw [List.foldl_cons, ih, List.map_cons, List.sum_cons]
    ring

lemma mem_mkReplenishment (kioskId : Nat) (lows : List CartLine) (l : CartLine)
    (hl : l ∈ lows) :
    ∀ freshId : Nat, ∃ po ∈ mkReplenishment kioskId freshId lows,
      po.kioskId = kioskId ∧
      po.items = [⟨l.itemName, 50 - (l.stock - l.quantity)⟩] ∧
      po.status = "Preparing" := by
  induction lows with
  | nil => cases hl
  | cons a c ih =>
    intro freshId
    rcases List.mem_cons.mp hl with rfl | hl'
    · exact ⟨_, List.mem_cons_self _ _, rfl, rfl, rfl⟩
    · obtain ⟨po, hpo, hprops⟩ := ih hl' (freshId + 1)
      exact ⟨po, List.mem_cons_of_mem _ hpo, hprops⟩

/-- C1: for every sale submitted with a cart whose lines each have
`1 ≤ quantity ≤ stock` (stock being the referenced row's stock at submission),
the inserted Order's total equals the sum of `quantity × unit price` over its
line items, and each referenced row's post-sale stock equals `stock - quantity`
for its line. -/
theorem sale_total_and_stock (st : DBState) (kioskId : Nat) (cart : List CartLine)
    (pay : String) (today : Nat)
    (hne : cart ≠ [])
    (hpw : cart.Pairwise fun a b => a.id ≠ b.id)
    (_hq : ∀ l ∈ cart, 1 ≤ l.quantity)
    (hsnap : ∀ l ∈ cart, ∀ r ∈ st.kioskInventory, r.id = l.id →
      r.stock = l.stock ∧ l.quantity ≤ r.stock) :
    (∃ o, (handlePlaceOrder st kioskId cart pay today).orders = st.orders ++ [o] ∧
      o.total = orderItemsTotal o.items) ∧
    (∀ l ∈ cart, ∀ r ∈ st.kioskInventory, r.id = l.id →
      ∃ r' ∈ (handlePlaceOrder st kioskId cart pay today).kioskInventory,
        r'.id = r.id ∧ r'.stock = r.stock - l.quantity) := by
  constructor
  · refine ⟨⟨kioskId, cart.map fun item =>
      OrderItem.mk item.id item.itemName item.quantity item.price,
      getTotalPrice cart, pay, today⟩, ?_, ?_⟩
    · unfold handlePlaceOrder
      rw [if_neg hne]
    · show getTotalPrice cart = orderItemsTotal _
      unfold getTotalPrice orderItemsTotal
      rw [getTotalPrice_foldl, List.map_map, zero_add]
      rfl
  · intro l hl r hr hid
    refine ⟨applyCartLine l r, ?_, ?_, ?_⟩
    · unfold handlePlaceOrder
      rw [if_neg hne]
      show applyCartLine l r ∈ cart.foldl updateStockForLine st.kioskInventory
      rw [foldl_updateStock_eq_map]
      exact rowFold_single_match cart l r hpw hl hid ▸
        List.mem_map_of_mem _ hr
    · exact applyCartLine_id l r
    · unfold applyCartLine
      rw [if_pos hid]
      show l.stock - l.quantity = r.stock - l.quantity
      rw [(hsnap l hl r hr hid).1]

/-- C1 witness: the spec's scenario — a `Pani Puri` row with stock 12 and
price 40, a sale of quantity 5 — satisfies the hypotheses, and the theorem
yields an order of total 200 and a post-sale row of stock 7. -/
theorem sale_total_and_stock_witness :
    (let st : DBState :=
      ⟨[], [], [⟨1, 1, "Pani Puri", 12, 40, "In Stock"⟩], [], [], [], [], [], 2⟩
     let cart : List CartLine := [⟨1, "Pani Puri", 12, 40, 5⟩]
     (cart ≠ [] ∧ (cart.Pairwise fun a b => a.id ≠ b.id) ∧
       (∀ l ∈ cart, 1 ≤ l.quantity) ∧
       (∀ l ∈ cart, ∀ r ∈ st.kioskInventory, r.id = l.id →
         r.stock = l.stock ∧ l.quantity ≤ r.stock)) ∧
     ((∃ o, (handlePlaceOrder st 1 cart "Cash" 0).orders = st.orders ++ [o] ∧
        o.total = orderItemsTotal o.items) ∧
      (∀ l ∈ cart, ∀ r ∈ st.kioskInventory, r.id = l.id →
        ∃ r' ∈ (handlePlaceOrder st 1 cart "Cash" 0).kioskInventory,
          r'.id = r.id ∧ r'.stock = r.stock - l.quantity))) := by
  refine ⟨⟨by decide, ?_, by decide, by decide⟩, ?_⟩
  · exact List.pairwise_singleton _ _
  · exact sale_total_and_stock _ 1 _ "Cash" 0 (by decide)
      (List.pairwise_singleton _ _) (by decide) (by decide)

/-- C2: for every cart line of a submitted sale whose stock update yields
`newStock < 10`, a Purchase Order for that kiosk is created whose requested
quantity for that item equals `50 - newStock`, with status `Preparing`. -/
theorem sale_replenishment (st : DBState) (kioskId : Nat) (cart : List CartLine)
    (pay : String) (today : Nat) (hne : cart ≠ []) :
    ∀ l ∈ cart, l.stock - l.quantity < 10 →
      ∃ po ∈ (handlePlaceOrder st kioskId cart pay today).purchaseOrders.drop
          st.purchaseOrders.length,
        po.kioskId = kioskId ∧
        po.items = [⟨l.itemName, 50 - (l.stock - l.quantity)⟩] ∧
        po.status = "Preparing" := by
  intro l hl hlow
  have hmem : l ∈ cart.filter fun item => decide (item.stock - item.quantity < 10) := by
    rw [List.mem_filter]
    exact ⟨hl, by simpa using hlow⟩
  unfold handlePlaceOrder
  rw [if_neg hne]
  show ∃ po ∈ (st.purchaseOrders ++ mkReplenishment kioskId st.nextId _).drop
    st.purchaseOrders.length, _
  rw [List.drop_left]
  exact mem_mkReplenishment kioskId _ l hmem st.nextId

/-- C2 witness: in the spec's scenario (stock 12, sale of 5, `newStock = 7`),
the sale creates a purchase order `{item: Pani Puri, quantity: 43, status:
Preparing}`. -/
theorem sale_replenishment_witness :
    (let st : DBState :=
      ⟨[], [], [⟨1, 1, "Pani Puri", 12, 40, "In Stock"⟩], [], [], [], [], [], 2⟩
     let cart : List CartLine := [⟨1, "Pani Puri", 12, 40, 5⟩]
     (cart ≠ [] ∧ (⟨1, "Pani Puri", 12, 40, 5⟩ : CartLine) ∈ cart ∧
       (12 : Int) - 5 < 10) ∧
     ∃ po ∈ (handlePlaceOrder st 1 cart "Cash" 0).purchaseOrders.drop
         st.purchaseOrders.length,
       po.kioskId = 1 ∧ po.items = [⟨"Pani Puri", 50 - ((12 : Int) - 5)⟩] ∧
       po.status = "Preparing") := by
  exact ⟨⟨by decide, by decide, by decide⟩,
    sale_replenishment
      ⟨[], [], [⟨1, 1, "Pani Puri", 12, 40, "In Stock"⟩], [], [], [], [], [], 2⟩
      1 [⟨1, "Pani Puri", 12, 40, 5⟩] "Cash" 0 (by decide)
      ⟨1, "Pani Puri", 12, 40, 5⟩ (by decide) (by decide)⟩

/-- C6: a manager sign-up first checks for an existing manager profile and
aborts before any write when one exists, so sequential sign-ups never create a
second manager account. -/
theorem single_manager_signup (st : DBState) (userId : Nat)
    (email name password role kioskName : String) :
    (role = "manager" → (∃ p ∈ st.profiles, p.role = "manager") →
      handleSignUp st userId email name password role kioskName = st) ∧
    (managerCount st ≤ 1 →
      managerCount (handleSignUp st userId email name password role kioskName) ≤ 1) := by
  constructor
  · intro hrole hex
    have hsome : (st.profiles.find? fun p => p.role == "manager").isSome := by
      rw [List.find?_isSome]
      obtain ⟨p, hp, hpr⟩ := hex
      exact ⟨p, hp, by simpa using hpr⟩
    unfold handleSignUp
    split
    · rfl
    · rw [if_pos ⟨hrole, hsome⟩]
  · intro hle
    unfold handleSignUp
    split
    · exact hle
    · split
      · exact hle
      · rename_i hnot
        unfold managerCount at *
        rw [List.filter_append]
        by_cases hrole : role = "manager"
        · have hnone : (st.profiles.find? fun p => p.role == "manager") = none := by
            rcases h : st.profiles.find? fun p => p.role == "manager" with _ | p
            · exact h
            · exact absurd ⟨hrole, h ▸ rfl⟩ hnot
          rw [List.find?_eq_none] at hnone
          have hnil : (st.profiles.filter fun p => p.role == "manager") = [] := by
            rw [List.filter_eq_nil_iff]
            exact hnone
          rw [hnil]
          simp [hrole]
        · have hf : ((fun p : Profile => p.role == "manager")
              ⟨userId, email, name, role,
                if role = "kiosk" then some kioskName else none⟩) = false := by
            simpa using hrole
          simpa [List.filter_cons, hf] using hle

/-- C6 witness: with one manager profile present, a second manager sign-up is
rejected unchanged, and the manager count stays at most one. -/
theorem single_manager_signup_witness :
    (let st : DBState :=
      ⟨[⟨1, "boss@x.in", "Boss", "manager", none⟩], [], [], [], [], [], [], [], 2⟩
     ("manager" : String) = "manager" ∧
     (∃ p ∈ st.profiles, p.role = "manager") ∧ managerCount st ≤ 1 ∧
     handleSignUp st 2 "b@x.in" "Other" "secret7" "manager" "" = st ∧
     managerCount (handleSignUp st 2 "b@x.in" "Other" "secret7" "manager" "") ≤ 1) := by
  refine ⟨rfl, by decide, by decide, ?_, ?_⟩
  · exact (single_manager_signup
      ⟨[⟨1, "boss@x.in", "Boss", "manager", none⟩], [], [], [], [], [], [], [], 2⟩
      2 "b@x.in" "Other" "secret7" "manager" "").1 rfl (by decide)
  · exact (single_manager_signup
      ⟨[⟨1, "boss@x.in", "Boss", "manager", none⟩], [], [], [], [], [], [], [], 2⟩
      2 "b@x.in" "Other" "secret7" "manager" "").2 (by decide)

/-- C7 counterexample: `handleStatusChange` happily moves a purchase order out
of the terminal state `Delivered` back to `Preparing`, so the claimed
linear-progression enforcement is false on the code. -/
theorem po_status_change_cex :
    (let st : DBState :=
      ⟨[], [], [], [], [⟨1, 1, [⟨"Pani Puri", 43⟩], "Delivered"⟩], [], [], [], 2⟩
     ∃ po ∈ st.purchaseOrders, po.status = "Delivered" ∧
       ∃ po' ∈ (handleStatusChange st po.id "Preparing").purchaseOrders,
         po'.id = po.id ∧ po'.status = "Preparing") := by
  decide

/-- C7 amended: `handleStatusChange` is an unconstrained overwrite of the
selected order's status — the chosen value is written regardless of the
current state (terminal states included), and all other orders are left
unchanged; the progression `Preparing → Out for Delivery → Delivered` with
`Rejected` from `Preparing` is the intended path, not an enforced one. -/
theorem po_status_change_amended (st : DBState) (orderId : Nat) (newStatus : String) :
    (∀ po ∈ st.purchaseOrders, po.id = orderId →
      { po with status := newStatus } ∈
        (handleStatusChange st orderId newStatus).purchaseOrders) ∧
    (∀ po ∈ st.purchaseOrders, po.id ≠ orderId →
      po ∈ (handleStatusChange st orderId newStatus).purchaseOrders) ∧
    (∀ po' ∈ (handleStatusChange st orderId newStatus).purchaseOrders,
      ∃ po ∈ st.purchaseOrders,
        po' = po ∨ po' = { po with status := newStatus }) := by
  refine ⟨?_, ?_, ?_⟩
  · intro po hpo hid
    refine List.mem_map.mpr ⟨po, hpo, ?_⟩
    simp [hid]
  · intro po hpo hid
    refine List.mem_map.mpr ⟨po, hpo, ?_⟩
    simp [hid]
  · intro po' hpo'
    obtain ⟨po, hpo, hf⟩ := List.mem_map.mp hpo'
    refine ⟨po, hpo, ?_⟩
    by_cases hid : po.id = orderId
    · right
      rw [← hf]
      simp [hid]
    · left
      rw [← hf]
      simp [hid]

/-- C7 amended witness: on a concrete `Delivered` order, the overwrite to
`Preparing` lands in the table. -/
theorem po_status_change_amended_witness :
    ((⟨1, 1, [⟨"Pani Puri", 43⟩], "Delivered"⟩ : PurchaseOrder) ∈
      (⟨[], [], [], [], [⟨1, 1, [⟨"Pani Puri", 43⟩], "Delivered"⟩], [], [], [], 2⟩ :
        DBState).purchaseOrders ∧
      (⟨1, 1, [⟨"Pani Puri", 43⟩], "Delivered"⟩ : PurchaseOrder).id = 1) ∧
    (⟨1, 1, [⟨"Pani Puri", 43⟩], "Preparing"⟩ : PurchaseOrder) ∈
      (handleStatusChange
        ⟨[], [], [], [], [⟨1, 1, [⟨"Pani Puri", 43⟩], "Delivered"⟩], [], [], [], 2⟩
        1 "Preparing").purchaseOrders := by
  refine ⟨⟨by decide, rfl⟩, ?_⟩
  exact (po_status_change_amended
    ⟨[], [], [], [], [⟨1, 1, [⟨"Pani Puri", 43⟩], "Delivered"⟩], [], [], [], 2⟩
    1 "Preparing").1 ⟨1, 1, [⟨"Pani Puri", 43⟩], "Delivered"⟩ (by decide) rfl

/-- C8: once inserted, an Order row is never mutated by the catalog-writing
operations — the factory edit, the allocation send, both wastage recordings
and the purchase-order status change leave the `orders` table exactly as it
was; the line items were frozen into the order by value at creation. -/
theorem orders_immutable (st : DBState) (itemId : Nat) (editName : String)
    (stock : Int) (price : Rat) (f : FactoryRow) (selectedKiosk : Nat)
    (sendQuantity : Option Int) (kioskId orderId : Nat) (itemName : String)
    (currentStock : Int) (quantityInput : Option Int) (reason newStatus : String) :
    (handleUpdateItem st itemId editName stock price).orders = st.orders ∧
    (handleSendItem st f selectedKiosk sendQuantity).orders = st.orders ∧
    (wastageDirectSubmit st kioskId itemName currentStock quantityInput reason).orders
      = st.orders ∧
    (orderWastageSubmit st orderId kioskId itemName quantityInput reason).orders
      = st.orders ∧
    (handleStatusChange st orderId newStatus).orders = st.orders := by
  refine ⟨rfl, ?_, ?_, ?_, rfl⟩
  · unfold handleSendItem
    rcases sendQuantity with _ | q
    · rfl
    · dsimp only
      split
      · rfl
      · split <;> rfl
  · unfold wastageDirectSubmit
    rcases quantityInput with _ | q
    · rfl
    · dsimp only
      split
      · rfl
      · split
        · rfl
        · split <;> rfl
  · unfold orderWastageSubmit
    split
    · rfl
    · rcases quantityInput with _ | q
      · rfl
      · dsimp only
        split
        · rfl
        · split <;> rfl

/-- C10: the manager's reset deletes exactly the orders dated today, the clock
logs with timestamp in `[today 00:00:00, today 23:59:59)` and the reports
dated today, and leaves every other table unchanged — in particular kiosk
stock decremented by the deleted sales stays decremented, and the purchase
orders and wastage records generated by those sales survive. -/
theorem reset_todays_data (st : DBState) (today : Nat) :
    (∀ o : Order, o ∈ (handleReset st today).orders ↔
      o ∈ st.orders ∧ o.date ≠ today) ∧
    (∀ c : ClockLog, c ∈ (handleReset st today).clockLogs ↔
      c ∈ st.clockLogs ∧
        ¬ (dayStartSec today ≤ c.timestamp ∧ c.timestamp < dayLastSec today)) ∧
    (∀ r : Report, r ∈ (handleReset st today).reports ↔
      r ∈ st.reports ∧ r.date ≠ today) ∧
    (handleReset st today).kioskInventory = st.kioskInventory ∧
    (handleReset st today).purchaseOrders = st.purchaseOrders ∧
    (handleReset st today).wastage = st.wastage ∧
    (handleReset st today).factoryInventory = st.factoryInventory ∧
    (handleReset st today).profiles = st.profiles := by
  refine ⟨?_, ?_, ?_, rfl, rfl, rfl, rfl, rfl⟩
  · intro o
    show o ∈ st.orders.filter _ ↔ _
    rw [List.mem_filter]
    simp
  · intro c
    show c ∈ st.clockLogs.filter _ ↔ _
    rw [List.mem_filter]
    constructor
    · rintro ⟨h1, h2⟩
      simp at h2
      exact ⟨h1, by omega⟩
    · rintro ⟨h1, h2⟩
      refine ⟨h1, ?_⟩
      simp
      omega
  · intro r
    show r ∈ st.reports.filter _ ↔ _
    rw [List.mem_filter]
    simp

lemma out_ne_low : ("Out of Stock" : String) ≠ "Low Stock" := by decide

lemma out_ne_in : ("Out of Stock" : String) ≠ "In Stock" := by decide

lemma low_ne_in : ("Low Stock" : String) ≠ "In Stock" := by decide

lemma statusMatchesStock_derived (n : Int) (h : 0 ≤ n) :
    statusMatchesStock (derivedStatus n) n := by
  unfold statusMatchesStock derivedStatus
  split_ifs with h0 hlt
  · exact ⟨by simp [h0], by simp [out_ne_low]; omega, by simp [out_ne_in]; omega⟩
  · exact ⟨by simp [Ne.symm out_ne_low]; omega, by simp; omega,
      by simp [low_ne_in]; omega⟩
  · exact ⟨by simp [Ne.symm out_ne_in]; omega, by simp [Ne.symm low_ne_in]; omega,
      by simp; omega⟩

lemma statusMatchesStock_coarse (n : Int) (h : 1 ≤ n) :
    statusMatchesStock (coarseStatus n) n := by
  unfold statusMatchesStock coarseStatus
  split_ifs with hlt
  · exact ⟨by simp [Ne.symm out_ne_low]; omega, by simp; omega,
      by simp [low_ne_in]; omega⟩
  · exact ⟨by simp [Ne.symm out_ne_in]; omega, by simp [Ne.symm low_ne_in]; omega,
      by simp; omega⟩

/-- C5: a successful send of quantity `q ≥ 1` (with `q` at most the factory
stock) upserts the destination kiosk row: if a row matching the item name
exists its stock is incremented by `q` with the status recomputed, otherwise a
new row is inserted with `stock = q`, the factory entry's price, and the
derived status — e.g. 30 units of a 120-rupee item into an empty kiosk gives
`{stock 30, price 120, status In Stock}`. -/
theorem send_item_upsert (st : DBState) (sendItem : FactoryRow)
    (selectedKiosk : Nat) (quantity : Int)
    (hq : 1 ≤ quantity) (hstock : quantity ≤ sendItem.stock) :
    (∀ existing, (st.kioskInventory.find? fun r =>
        r.kioskId == selectedKiosk && r.itemName == sendItem.name) = some existing →
      0 ≤ existing.stock →
      ∃ r' ∈ (handleSendItem st sendItem selectedKiosk (some quantity)).kioskInventory,
        r'.id = existing.id ∧ r'.stock = existing.stock + quantity ∧
        statusMatchesStock r'.status r'.stock) ∧
    ((st.kioskInventory.find? fun r =>
        r.kioskId == selectedKiosk && r.itemName == sendItem.name) = none →
      ∃ r' ∈ (handleSendItem st sendItem selectedKiosk (some quantity)).kioskInventory,
        r'.kioskId = selectedKiosk ∧ r'.itemName = sendItem.name ∧
        r'.stock = quantity ∧ r'.price = sendItem.price ∧
        statusMatchesStock r'.status r'.stock) := by
  constructor
  · intro existing hfind h0
    unfold handleSendItem
    dsimp only
    rw [if_neg (not_lt.mpr hstock), hfind]
    refine ⟨({ existing with
        stock := existing.stock + quantity
        status := coarseStatus (existing.stock + quantity) } : KioskRow),
      ?_, rfl, rfl, ?_⟩
    · refine List.mem_map.mpr ⟨existing, List.mem_of_find?_eq_some hfind, ?_⟩
      simp
    · exact statusMatchesStock_coarse _ (by omega)
  · intro hfind
    unfold handleSendItem
    dsimp only
    rw [if_neg (not_lt.mpr hstock), hfind]
    refine ⟨⟨st.nextId, selectedKiosk, sendItem.name, quantity, sendItem.price,
        coarseStatus quantity⟩, ?_, rfl, rfl, rfl, rfl, ?_⟩
    · exact List.mem_append_right _ (List.mem_singleton.mpr rfl)
    · exact statusMatchesStock_coarse quantity hq

/-- C5 witness: the spec's scenario — factory entry `Gulab Jamun` at price
120, 30 units sent to a kiosk holding no such row — yields a new kiosk row
with stock 30, price 120 and status `In Stock`. -/
theorem send_item_upsert_witness :
    (let st : DBState :=
      ⟨[], [⟨1, "Gulab Jamun", 100, 120, "In Stock"⟩], [], [], [], [], [], [], 2⟩
     let f : FactoryRow := ⟨1, "Gulab Jamun", 100, 120, "In Stock"⟩
     ((1 : Int) ≤ 30 ∧ (30 : Int) ≤ f.stock ∧
      (st.kioskInventory.find? fun r =>
        r.kioskId == 1 && r.itemName == f.name) = none) ∧
     ∃ r' ∈ (handleSendItem st f 1 (some 30)).kioskInventory,
       r'.kioskId = 1 ∧ r'.itemName = f.name ∧ r'.stock = 30 ∧
       r'.price = f.price ∧ statusMatchesStock r'.status r'.stock) := by
  refine ⟨⟨by decide, by decide, rfl⟩, ?_⟩
  exact (send_item_upsert
    ⟨[], [⟨1, "Gulab Jamun", 100, 120, "In Stock"⟩], [], [], [], [], [], [], 2⟩
    ⟨1, "Gulab Jamun", 100, 120, "In Stock"⟩ 1 30 (by decide) (by decide)).2 rfl

/-- C9: every client-side validation failure aborts the operation before any
write — a direct wastage submission with an empty field, a non-positive or
unparseable quantity, or a quantity above the stock snapshot leaves the state
untouched; so do an empty-cart order placement, a send with an empty or
excessive quantity, and an order-linked wastage with an empty field or
non-positive quantity. -/
theorem validation_aborts :
    (∀ (st : DBState) (kioskId : Nat) (itemName : String) (currentStock : Int)
        (quantityInput : Option Int) (reason : String),
      (quantityInput = none ∨ reason = "" ∨
        (∀ q, quantityInput = some q → q ≤ 0 ∨ currentStock < q)) →
      wastageDirectSubmit st kioskId itemName currentStock quantityInput reason = st) ∧
    (∀ (st : DBState) (kioskId : Nat) (pay : String) (today : Nat),
      handlePlaceOrder st kioskId [] pay today = st) ∧
    (∀ (st : DBState) (f : FactoryRow) (selectedKiosk : Nat)
        (sendQuantity : Option Int),
      (sendQuantity = none ∨ (∀ v, sendQuantity = some v → f.stock < v)) →
      handleSendItem st f selectedKiosk sendQuantity = st) ∧
    (∀ (st : DBState) (orderId kioskId : Nat) (selectedItem : String)
        (quantityInput : Option Int) (reason : String),
      (selectedItem = "" ∨ reason = "" ∨ quantityInput = none ∨
        (∀ q, quantityInput = some q → q ≤ 0)) →
      orderWastageSubmit st orderId kioskId selectedItem quantityInput reason = st) := by
  refine ⟨?_, ?_, ?_, ?_⟩
  · intro st kioskId itemName currentStock quantityInput reason hbad
    unfold wastageDirectSubmit
    rcases quantityInput with _ | q
    · rfl
    · dsimp only
      rcases hbad with h | h | h
      · cases h
      · rw [if_pos h]
      · rcases h q rfl with hq | hq <;>
          · split_ifs <;> rfl
  · intro st kioskId pay today
    rfl
  · intro st f selectedKiosk sendQuantity hbad
    unfold handleSendItem
    rcases sendQuantity with _ | v
    · rfl
    · dsimp only
      rcases hbad with h | h
      · cases h
      · rw [if_pos (h v rfl)]
  · intro st orderId kioskId selectedItem quantityInput reason hbad
    unfold orderWastageSubmit
    rcases hbad with h | h | h | h
    · rw [if_pos (Or.inl h)]
    · rw [if_pos (Or.inr h)]
    · split
      · rfl
      · rw [h]
    · split
      · rfl
      · rcases quantityInput with _ | q
        · rfl
        · dsimp only
          rw [if_pos (h q rfl)]

/-- C9 witness: a direct wastage of 15 against a stock snapshot of 10 fails
validation and changes nothing, and an empty-cart order placement changes
nothing. -/
theorem validation_aborts_witness :
    (let st : DBState :=
      ⟨[], [], [⟨1, 1, "Pani Puri", 10, 40, "Low Stock"⟩], [], [], [], [], [], 2⟩
     ((some (15 : Int) = none ∨ ("Broken" : String) = "" ∨
        (∀ q, some (15 : Int) = some q → q ≤ 0 ∨ (10 : Int) < q)) ∧
      wastageDirectSubmit st 1 "Pani Puri" 10 (some 15) "Broken" = st) ∧
     handlePlaceOrder st 1 [] "Cash" 0 = st) := by
  refine ⟨⟨?_, ?_⟩, ?_⟩
  · exact Or.inr (Or.inr fun q hq => by cases hq; right; decide)
  · exact validation_aborts.1
      ⟨[], [], [⟨1, 1, "Pani Puri", 10, 40, "Low Stock"⟩], [], [], [], [], [], 2⟩
      1 "Pani Puri" 10 (some 15) "Broken"
      (Or.inr (Or.inr fun q hq => by cases hq; right; decide))
  · exact validation_aborts.2.1
      ⟨[], [], [⟨1, 1, "Pani Puri", 10, 40, "Low Stock"⟩], [], [], [], [], [], 2⟩
      1 "Cash" 0

lemma wastageDirect_inventory (st : DBState) (kioskId : Nat) (itemName : String)
    (currentStock q : Int) (reason : String)
    (hr : ¬ reason = "") (h1 : ¬ q ≤ 0) (h2 : ¬ currentStock < q) :
    (wastageDirectSubmit st kioskId itemName currentStock (some q) reason).kioskInventory
      = st.kioskInventory.map (fun r =>
        if r.kioskId = kioskId ∧ r.itemName = itemName then
          { r with stock := max 0 (currentStock - q),
                   status := derivedStatus (max 0 (currentStock - q)) }
        else r) := by
  unfold wastageDirectSubmit
  dsimp only
  rw [if_neg hr, if_neg h1, if_neg h2]

lemma orderWastage_inventory (st : DBState) (orderId kioskId : Nat)
    (selectedItem : String) (q : Int) (reason : String) (row : KioskRow)
    (hsel : ¬ selectedItem = "") (hreason : ¬ reason = "") (h1 : ¬ q ≤ 0)
    (hfind : st.kioskInventory.find? (fun r =>
      r.kioskId == kioskId && r.itemName == selectedItem) = some row) :
    (orderWastageSubmit st orderId kioskId selectedItem (some q) reason).kioskInventory
      = st.kioskInventory.map (fun r =>
        if r.kioskId = kioskId ∧ r.itemName = selectedItem then
          { r with stock := max 0 (row.stock - q) }
        else r) := by
  unfold orderWastageSubmit
  rw [if_neg (not_or.mpr ⟨hsel, hreason⟩)]
  dsimp only
  rw [if_neg h1, hfind]

lemma sendItem_existing (st : DBState) (f : FactoryRow) (k : Nat) (q : Int)
    (existing : KioskRow) (hstock : ¬ f.stock < q)
    (hfind : st.kioskInventory.find? (fun r =>
      r.kioskId == k && r.itemName == f.name) = some existing) :
    (handleSendItem st f k (some q)).kioskInventory
      = st.kioskInventory.map (fun r =>
        if r.id = existing.id then
          { r with stock := existing.stock + q,
                   status := coarseStatus (existing.stock + q) }
        else r) := by
  unfold handleSendItem
  dsimp only
  rw [if_neg hstock, hfind]

lemma sendItem_inserted (st : DBState) (f : FactoryRow) (k : Nat) (q : Int)
    (hstock : ¬ f.stock < q)
    (hfind : st.kioskInventory.find? (fun r =>
      r.kioskId == k && r.itemName == f.name) = none) :
    (handleSendItem st f k (some q)).kioskInventory
      = st.kioskInventory ++
        [⟨st.nextId, k, f.name, q, f.price, coarseStatus q⟩] := by
  unfold handleSendItem
  dsimp only
  rw [if_neg hstock, hfind]

/-- C3 counterexample: the order-linked wastage path writes the clamped stock
without recomputing the status, so a row driven to stock 0 keeps its stale
`In Stock` label and violates the claimed status/stock equivalence. -/
theorem kiosk_status_cex :
    (let st : DBState :=
      ⟨[], [], [⟨1, 1, "Pani Puri", 12, 40, "In Stock"⟩], [], [], [], [], [], 2⟩
     ∃ r ∈ (orderWastageSubmit st 7 1 "Pani Puri" (some 12) "Broken").kioskInventory,
       r.stock = 0 ∧ ¬ statusMatchesStock r.status r.stock) := by
  decide

/-- C3 amended: the status/stock equivalence holds for every kiosk catalog row
written by a sale submission (cart lines with `1 ≤ quantity ≤ stock`), by a
direct-inventory wastage recording, and by an allocation send of positive
quantity; it does not hold for the order-linked wastage path, which updates
stock without writing status. -/
theorem kiosk_status_amended :
    (∀ (st : DBState) (kioskId : Nat) (cart : List CartLine) (pay : String)
        (today : Nat),
      cart ≠ [] → (cart.Pairwise fun a b => a.id ≠ b.id) →
      (∀ l ∈ cart, 1 ≤ l.quantity) →
      (∀ l ∈ cart, ∀ r ∈ st.kioskInventory, r.id = l.id →
        r.stock = l.stock ∧ l.quantity ≤ r.stock) →
      ∀ l ∈ cart, ∀ r ∈ st.kioskInventory, r.id = l.id →
        ∃ r' ∈ (handlePlaceOrder st kioskId cart pay today).kioskInventory,
          r'.id = r.id ∧ statusMatchesStock r'.status r'.stock) ∧
    (∀ (st : DBState) (kioskId : Nat) (itemName : String) (currentStock q : Int)
        (reason : String),
      ¬ reason = "" → 1 ≤ q → q ≤ currentStock →
      ∀ r ∈ st.kioskInventory, r.kioskId = kioskId → r.itemName = itemName →
        ∃ r' ∈ (wastageDirectSubmit st kioskId itemName currentStock
            (some q) reason).kioskInventory,
          r'.id = r.id ∧ statusMatchesStock r'.status r'.stock) ∧
    (∀ (st : DBState) (f : FactoryRow) (k : Nat) (q : Int),
      1 ≤ q → q ≤ f.stock →
      (∀ existing, (st.kioskInventory.find? fun r =>
          r.kioskId == k && r.itemName == f.name) = some existing →
        0 ≤ existing.stock →
        ∃ r' ∈ (handleSendItem st f k (some q)).kioskInventory,
          r'.id = existing.id ∧ statusMatchesStock r'.status r'.stock) ∧
      ((st.kioskInventory.find? fun r =>
          r.kioskId == k && r.itemName == f.name) = none →
        ∃ r' ∈ (handleSendItem st f k (some q)).kioskInventory,
          r'.kioskId = k ∧ r'.itemName = f.name ∧
          statusMatchesStock r'.status r'.stock)) := by
  refine ⟨?_, ?_, ?_⟩
  · intro st kioskId cart pay today hne hpw hq hsnap l hl r hr hid
    refine ⟨applyCartLine l r, ?_, applyCartLine_id l r, ?_⟩
    · unfold handlePlaceOrder
      rw [if_neg hne]
      show applyCartLine l r ∈ cart.foldl updateStockForLine st.kioskInventory
      rw [foldl_updateStock_eq_map]
      exact rowFold_single_match cart l r hpw hl hid ▸ List.mem_map_of_mem _ hr
    · unfold applyCartLine
      rw [if_pos hid]
      obtain ⟨hsn, hbound⟩ := hsnap l hl r hr hid
      have hq1 := hq l hl
      exact statusMatchesStock_derived _ (by omega)
  · intro st kioskId itemName currentStock q reason hre hq1 hqc r hr hk hn
    rw [show (wastageDirectSubmit st kioskId itemName currentStock
        (some q) reason).kioskInventory = _ from
      wastageDirect_inventory st kioskId itemName currentStock q reason
        hre (by omega) (by omega)]
    refine ⟨_, List.mem_map_of_mem _ hr, ?_⟩
    rw [if_pos ⟨hk, hn⟩]
    exact ⟨rfl, statusMatchesStock_derived _ (by omega)⟩
  · intro st f k q hq1 hqs
    constructor
    · intro existing hfind h0
      rw [sendItem_existing st f k q existing (not_lt.mpr hqs) hfind]
      refine ⟨_, List.mem_map_of_mem _ (List.mem_of_find?_eq_some hfind), ?_⟩
      rw [if_pos rfl]
      exact ⟨rfl, statusMatchesStock_coarse _ (by omega)⟩
    · intro hfind
      rw [sendItem_inserted st f k q (not_lt.mpr hqs) hfind]
      exact ⟨⟨st.nextId, k, f.name, q, f.price, coarseStatus q⟩,
        List.mem_append_right _ (List.mem_singleton.mpr rfl), rfl, rfl,
        statusMatchesStock_coarse q hq1⟩

/-- C3 amended witness: a direct wastage of the full stock of 12 drives the
row to stock 0 with status `Out of Stock`, satisfying the equivalence. -/
theorem kiosk_status_amended_witness :
    (let st : DBState :=
      ⟨[], [], [⟨1, 1, "Pani Puri", 12, 40, "In Stock"⟩], [], [], [], [], [], 2⟩
     (¬ ("Broken" : String) = "" ∧ (1 : Int) ≤ 12 ∧ (12 : Int) ≤ 12 ∧
      (⟨1, 1, "Pani Puri", 12, 40, "In Stock"⟩ : KioskRow) ∈ st.kioskInventory) ∧
     ∃ r' ∈ (wastageDirectSubmit st 1 "Pani Puri" 12 (some 12) "Broken").kioskInventory,
       r'.id = 1 ∧ statusMatchesStock r'.status r'.stock) := by
  refine ⟨⟨by decide, by decide, by decide, by decide⟩, ?_⟩
  exact kiosk_status_amended.2.1
    ⟨[], [], [⟨1, 1, "Pani Puri", 12, 40, "In Stock"⟩], [], [], [], [], [], 2⟩
    1 "Pani Puri" 12 12 "Broken" (by decide) (by decide) (by decide)
    ⟨1, 1, "Pani Puri", 12, 40, "In Stock"⟩ (by decide) rfl rfl

/-- C4 counterexample: the claim's own example — wastage of 15 against a row
with stock 10 — can only proceed through the order-linked path (the direct
path rejects quantities above stock), and there the row ends at the clamped
stock 0 but its status is not written, so it does not become `Out of Stock`. -/
theorem wastage_status_cex :
    (let st : DBState :=
      ⟨[], [], [⟨1, 1, "Samosa Chaat", 10, 50, "In Stock"⟩], [], [], [], [], [], 2⟩
     ∃ r ∈ (orderWastageSubmit st 7 1 "Samosa Chaat" (some 15) "Broken").kioskInventory,
       r.stock = 0 ∧ r.status ≠ "Out of Stock") := by
  decide

/-- C4 amended: post-wastage stock equals `max 0 (stock - quantity)` on both
wastage paths; the direct-inventory path (which enforces `quantity ≤ stock`)
also recomputes the status, so a clamped result of 0 yields `Out of Stock`
there, while the order-linked path — the only one that accepts a quantity
above the stock, as in the 15-against-10 example — leaves the status
unchanged. -/
theorem wastage_clamp_amended :
    (∀ (st : DBState) (orderId kioskId : Nat) (selectedItem : String) (q : Int)
        (reason : String) (row : KioskRow),
      ¬ selectedItem = "" → ¬ reason = "" → 1 ≤ q →
      (st.kioskInventory.find? fun r =>
        r.kioskId == kioskId && r.itemName == selectedItem) = some row →
      ∃ r' ∈ (orderWastageSubmit st orderId kioskId selectedItem
          (some q) reason).kioskInventory,
        r'.id = row.id ∧ r'.stock = max 0 (row.stock - q) ∧
        r'.status = row.status) ∧
    (∀ (st : DBState) (kioskId : Nat) (itemName : String) (currentStock q : Int)
        (reason : String),
      ¬ reason = "" → 1 ≤ q → q ≤ currentStock →
      ∀ r ∈ st.kioskInventory, r.kioskId = kioskId → r.itemName = itemName →
        ∃ r' ∈ (wastageDirectSubmit st kioskId itemName currentStock
            (some q) reason).kioskInventory,
          r'.id = r.id ∧ r'.stock = max 0 (currentStock - q) ∧
          (r'.stock = 0 → r'.status = "Out of Stock")) := by
  constructor
  · intro st orderId kioskId selectedItem q reason row hsel hre hq1 hfind
    rw [orderWastage_inventory st orderId kioskId selectedItem q reason row
      hsel hre (by omega) hfind]
    have hp := List.find?_some hfind
    simp only [Bool.and_eq_true, beq_iff_eq] at hp
    refine ⟨_, List.mem_map_of_mem _ (List.mem_of_find?_eq_some hfind), ?_⟩
    rw [if_pos ⟨hp.1, hp.2⟩]
    exact ⟨rfl, rfl, rfl⟩
  · intro st kioskId itemName currentStock q reason hre hq1 hqc r hr hk hn
    rw [wastageDirect_inventory st kioskId itemName currentStock q reason
      hre (by omega) (by omega)]
    refine ⟨_, List.mem_map_of_mem _ hr, ?_⟩
    rw [if_pos ⟨hk, hn⟩]
    refine ⟨rfl, rfl, ?_⟩
    intro h0
    show derivedStatus (max 0 (currentStock - q)) = "Out of Stock"
    have : max 0 (currentStock - q) = 0 := h0
    rw [this]
    rfl

/-- C4 amended witness: order-linked wastage of 15 against stock 10 clamps to
stock 0 with the status left as it was, and direct wastage of the full stock
of 10 clamps to 0 with status `Out of Stock`. -/
theorem wastage_clamp_amended_witness :
    (let st : DBState :=
      ⟨[], [], [⟨1, 1, "Samosa Chaat", 10, 50, "In Stock"⟩], [], [], [], [], [], 2⟩
     ((¬ ("Samosa Chaat" : String) = "" ∧ ¬ ("Broken" : String) = "" ∧
        (1 : Int) ≤ 15 ∧
        (st.kioskInventory.find? fun r =>
          r.kioskId == 1 && r.itemName == "Samosa Chaat") =
          some ⟨1, 1, "Samosa Chaat", 10, 50, "In Stock"⟩) ∧
      ∃ r' ∈ (orderWastageSubmit st 7 1 "Samosa Chaat"
          (some 15) "Broken").kioskInventory,
        r'.id = 1 ∧ r'.stock = max 0 ((10 : Int) - 15) ∧
        r'.status = "In Stock") ∧
     ∃ r' ∈ (wastageDirectSubmit st 1 "Samosa Chaat" 10
         (some 10) "Broken").kioskInventory,
       r'.id = 1 ∧ r'.stock = max 0 ((10 : Int) - 10) ∧
       (r'.stock = 0 → r'.status = "Out of Stock")) := by
  refine ⟨⟨⟨by decide, by decide, by decide, rfl⟩, ?_⟩, ?_⟩
  · exact wastage_clamp_amended.1
      ⟨[], [], [⟨1, 1, "Samosa Chaat", 10, 50, "In Stock"⟩], [], [], [], [], [], 2⟩
      7 1 "Samosa Chaat" 15 "Broken" ⟨1, 1, "Samosa Chaat", 10, 50, "In Stock"⟩
      (by decide) (by decide) (by decide) rfl
  · exact wastage_clamp_amended.2
      ⟨[], [], [⟨1, 1, "Samosa Chaat", 10, 50, "In Stock"⟩], [], [], [], [], [], 2⟩
      1 "Samosa Chaat" 10 10 "Broken" (by decide) (by decide) (by decide)
      ⟨1, 1, "Samosa Chaat", 10, 50, "In Stock"⟩ (by decide) rfl rfl

end FactoryKiosk
